import Mathlib

/-
Verification of the ai-hedge-fund pipeline against its specification.

The Python sources are shallowly embedded below:
* Python floats are modelled as rationals (ℚ); the arithmetic in the
  program is exact decimal arithmetic on scores, prices and cash.
* Python `None` becomes `Option.none`; a statement (such as a division)
  that would raise an exception in Python is modelled by a function
  returning `Option.none` at that input.
* Python dicts keyed by strings become association lists
  `List (String × _)` read through `List.lookup` (first binding wins,
  as keys are unique in every run of the program).
-/

/-- Render a rational for detail strings (stands in for Python f-string
number formatting, which is presentation-only glue). -/
def ratStr (q : ℚ) : String :=
  toString q.num ++ "/" ++ toString q.den

/-! ### Risk manager (src/plugins/risk_manager.py) -/

/-- One entry of `portfolio["positions"]`: the risk calculator only reads
the `long` and `short` share counts (`position.get("long", 0)`,
`position.get("short", 0)`). -/
structure Position where
  long : ℚ
  short : ℚ
deriving Repr, DecidableEq

/-- The slice of the stored `AgentState` that `RiskDataPlugin.get_risk_data`
reads: `data["tickers"]`, `portfolio["cash"]` and `portfolio["positions"]`. -/
structure RiskState where
  tickers : List String
  cash : ℚ
  positions : List (String × Position)
deriving Repr, DecidableEq

/-- The `reasoning` dict of a risk record: either the error object written
when there is no price, or the five computed limit figures. -/
inductive RiskReasoning where
  | err (error : String)
  | limits (portfolio_value current_position_value position_limit
      remaining_limit available_cash : ℚ)
deriving Repr, DecidableEq

/-- One entry of `risk_analysis[ticker]`. -/
structure RiskRecord where
  remaining_position_limit : ℚ
  current_price : ℚ
  reasoning : RiskReasoning
deriving Repr, DecidableEq

/-- Embeds `total_portfolio_value`: starts from `portfolio.get("cash", 0.0)`, adds
`long * price` and subtracts `short * price` for every position whose ticker
has a fetched price (`if ticker in current_prices`); positions without a
price are skipped. -/
def total_portfolio_value (cash : ℚ) (positions : List (String × Position))
    (prices : String → Option ℚ) : ℚ :=
  positions.foldl
    (fun acc tp =>
      match prices tp.1 with
      | some p => acc + tp.2.long * p - tp.2.short * p
      | none => acc)
    cash

/-- The risk record computed for one ticker of the universe, given the
already-computed `total_portfolio_value` (`tpv`). Mirrors the body of the
`for ticker in tickers` loop of `get_risk_data`. -/
def riskRecordFor (st : RiskState) (prices : String → Option ℚ) (tpv : ℚ)
    (ticker : String) : RiskRecord :=
  match prices ticker with
  | none =>
      { remaining_position_limit := 0
        current_price := 0
        reasoning := RiskReasoning.err "Missing price data for risk calculation" }
  | some current_price =>
      let position := (List.lookup ticker st.positions).getD ⟨0, 0⟩
      let long_value := position.long * current_price
      let short_value := position.short * current_price
      let current_position_value := |long_value - short_value|
      let position_limit := tpv * (20 / 100)
      let remaining_position_limit := position_limit - current_position_value
      let max_position_size := min remaining_position_limit st.cash
      { remaining_position_limit := max_position_size
        current_price := current_price
        reasoning := RiskReasoning.limits tpv current_position_value
            position_limit remaining_position_limit st.cash }

/-- Embeds `RiskDataPlugin.get_risk_data`: computes the portfolio value and then a
risk record for every ticker of the run. -/
def get_risk_data (st : RiskState) (prices : String → Option ℚ) :
    List (String × RiskRecord) :=
  let tpv := total_portfolio_value st.cash st.positions prices
  st.tickers.map (fun ticker => (ticker, riskRecordFor st prices tpv ticker))

theorem tpv_shift (prices : String → Option ℚ) :
    ∀ (l : List (String × Position)) (a b : ℚ),
      total_portfolio_value (a + b) l prices = a + total_portfolio_value b l prices := by
  intro l
  induction l with
  | nil => intro a b; simp [total_portfolio_value]
  | cons tp l ih =>
      intro a b
      simp only [total_portfolio_value, List.foldl_cons] at *
      cases h : prices tp.1 with
      | none => simpa [h] using ih a b
      | some p =>
          simp only [h]
          have : a + b + tp.2.long * p - tp.2.short * p
              = a + (b + tp.2.long * p - tp.2.short * p) := by ring
          rw [this, ih]

theorem tpv_eq_sum (prices : String → Option ℚ) :
    ∀ (l : List (String × Position)) (cash : ℚ),
      (∀ tp ∈ l, (prices tp.1).isSome = true) →
      total_portfolio_value cash l prices
        = cash + (l.map (fun tp =>
            tp.2.long * ((prices tp.1).getD 0) - tp.2.short * ((prices tp.1).getD 0))).sum := by
  intro l
  induction l with
  | nil => intro cash _; simp [total_portfolio_value]
  | cons tp l ih =>
      intro cash hall
      have hhd : (prices tp.1).isSome = true := hall tp (List.mem_cons_self _ _)
      cases h : prices tp.1 with
      | none => rw [h] at hhd; simp at hhd
      | some p =>
          have htl : ∀ x ∈ l, (prices x.1).isSome = true := by
            intro x hx; exact hall x (List.mem_cons_of_mem _ hx)
          simp only [total_portfolio_value, List.foldl_cons, h]
          have := ih (cash + tp.2.long * p - tp.2.short * p) htl
          simp only [total_portfolio_value] at this
          rw [this]
          simp [h, List.map_cons, List.sum_cons]
          ring

theorem lookup_map_pair {α : Type} (f : String → α) :
    ∀ (l : List String) (t : String), t ∈ l →
      List.lookup t (l.map (fun x => (x, f x))) = some (f t) := by
  intro l
  induction l with
  | nil => intro t ht; cases ht
  | cons a l ih =>
      intro t ht
      by_cases h : t = a
      · subst h; simp [List.lookup]
      · rcases List.mem_cons.mp ht with h' | h'
        · exact absurd h' h
        · simp only [List.map_cons, List.lookup]
          have : (t == a) = false := beq_false_of_ne h
          rw [this]
          exact ih t h'

theorem lookup_get_risk_data (st : RiskState) (prices : String → Option ℚ)
    (t : String) (ht : t ∈ st.tickers) :
    List.lookup t (get_risk_data st prices)
      = some (riskRecordFor st prices (total_portfolio_value st.cash st.positions prices) t) := by
  unfold get_risk_data
  exact lookup_map_pair _ st.tickers t ht

/-- Claim C6, as stated, is false on the code: the spec writes
`current_position_value = |long_shares·price − short_shares|·price`, but the
code computes `abs(long*price - short*price)`. For cash 1000, a long position
of 10 shares and price 50 the code records 500, while the claim's formula
gives `|10·50 − 0|·50 = 25000`. -/
theorem C6_counterexample :
    List.lookup "A" (get_risk_data ⟨["A"], 1000, [("A", ⟨10, 0⟩)]⟩ (fun _ => some 50))
      = some { remaining_position_limit := -200, current_price := 50,
               reasoning := RiskReasoning.limits 1500 500 300 (-200) 1000 }
    ∧ (500 : ℚ) ≠ |(10 : ℚ) * 50 - 0| * 50 := by
  constructor
  · norm_num [get_risk_data, riskRecordFor, total_portfolio_value, List.lookup]
  · norm_num

/-- Claim C6 (amended: `current_position_value = |long·price − short·price|`):
when prices are known for every position, the risk calculator computes
`total_portfolio_value = cash + Σ (long·price − short·price)`; per ticker the
record holds `position_limit = 0.20·total`, `remaining_limit = limit − cpv`
and `max_position_size = min(remaining, cash)`; cash 100000 with no positions
at price 50 yields limit 20000/cpv 0/remaining 20000/max 20000; and a
negative remaining limit is recorded without clamping. -/
theorem C6_risk_calculator (st : RiskState) (prices : String → Option ℚ)
    (t : String) (p : ℚ)
    (hall : ∀ tp ∈ st.positions, (prices tp.1).isSome = true)
    (ht : t ∈ st.tickers) (hp : prices t = some p) :
    total_portfolio_value st.cash st.positions prices
      = st.cash + (st.positions.map (fun tp =>
          tp.2.long * ((prices tp.1).getD 0) - tp.2.short * ((prices tp.1).getD 0))).sum
    ∧ List.lookup t (get_risk_data st prices)
        = some { remaining_position_limit :=
                   min (total_portfolio_value st.cash st.positions prices * (20/100)
                        - |((List.lookup t st.positions).getD ⟨0, 0⟩).long * p
                           - ((List.lookup t st.positions).getD ⟨0, 0⟩).short * p|) st.cash,
                 current_price := p,
                 reasoning := RiskReasoning.limits
                   (total_portfolio_value st.cash st.positions prices)
                   (|((List.lookup t st.positions).getD ⟨0, 0⟩).long * p
                      - ((List.lookup t st.positions).getD ⟨0, 0⟩).short * p|)
                   (total_portfolio_value st.cash st.positions prices * (20/100))
                   (total_portfolio_value st.cash st.positions prices * (20/100)
                     - |((List.lookup t st.positions).getD ⟨0, 0⟩).long * p
                        - ((List.lookup t st.positions).getD ⟨0, 0⟩).short * p|)
                   st.cash }
    ∧ get_risk_data ⟨["T"], 100000, [("T", ⟨0, 0⟩)]⟩ (fun _ => some 50)
        = [("T", { remaining_position_limit := 20000, current_price := 50,
                   reasoning := RiskReasoning.limits 100000 0 20000 20000 100000 })]
    ∧ get_risk_data ⟨["A"], 100, [("A", ⟨100, 0⟩)]⟩ (fun _ => some 10)
        = [("A", { remaining_position_limit := -780, current_price := 10,
                   reasoning := RiskReasoning.limits 1100 1000 220 (-780) 100 })] := by
  refine ⟨tpv_eq_sum prices st.positions st.cash hall, ?_, ?_, ?_⟩
  · rw [lookup_get_risk_data st prices t ht]
    simp only [riskRecordFor, hp]
  · norm_num [get_risk_data, riskRecordFor, total_portfolio_value, List.lookup]
  · norm_num [get_risk_data, riskRecordFor, total_portfolio_value, List.lookup]

/-- Witness for C6 at a concrete portfolio: one long position of 10 shares
at price 50 and cash 1000. -/
theorem C6_witness :
    total_portfolio_value 1000 [("A", ⟨10, 0⟩)] (fun _ => some 50)
      = 1000 + ((10 : ℚ) * 50 - 0 * 50) := by
  have h := C6_risk_calculator ⟨["A"], 1000, [("A", ⟨10, 0⟩)]⟩ (fun _ => some 50)
    "A" 50 (by simp) (by simp) rfl
  simpa using h.1

/-- Claim C7: a ticker of the run with no available price is recorded with
`remaining_position_limit = 0`, `current_price = 0` and an explicit
missing-price error reason; its position is excluded from
`total_portfolio_value`; and every other ticker still gets a record. -/
theorem C7_missing_price (st : RiskState) (prices : String → Option ℚ)
    (t : String) (ht : t ∈ st.tickers) (hp : prices t = none) :
    List.lookup t (get_risk_data st prices)
      = some { remaining_position_limit := 0, current_price := 0,
               reasoning := RiskReasoning.err "Missing price data for risk calculation" }
    ∧ (∀ (pos : Position) (cash : ℚ) (rest : List (String × Position)),
        total_portfolio_value cash ((t, pos) :: rest) prices
          = total_portfolio_value cash rest prices)
    ∧ (∀ t2 ∈ st.tickers, (List.lookup t2 (get_risk_data st prices)).isSome = true) := by
  refine ⟨?_, ?_, ?_⟩
  · rw [lookup_get_risk_data st prices t ht]
    simp only [riskRecordFor, hp]
  · intro pos cash rest
    simp only [total_portfolio_value, List.foldl_cons, hp]
  · intro t2 h2
    rw [lookup_get_risk_data st prices t2 h2]
    simp

/-- Witness for C7: ticker B has no price while ticker A does. -/
theorem C7_witness :
    List.lookup "B" (get_risk_data ⟨["A", "B"], 100, []⟩
        (fun s => if s = "B" then none else some 50))
      = some { remaining_position_limit := 0, current_price := 0,
               reasoning := RiskReasoning.err "Missing price data for risk calculation" } := by
  have h := C7_missing_price ⟨["A", "B"], 100, []⟩
    (fun s => if s = "B" then none else some 50) "B" (by simp) (by simp)
  exact h.1

/-- Claim C10: for a priced ticker, the `remaining_position_limit` field of
the written risk record is the cash-capped `min(position_limit −
current_position_value, cash)`; the uncapped difference appears only as
`reasoning.remaining_limit`; when cash is smaller than the uncapped
difference the recorded field equals the cash amount. -/
theorem C10_cash_capped (st : RiskState) (prices : String → Option ℚ)
    (t : String) (p : ℚ) (ht : t ∈ st.tickers) (hp : prices t = some p) :
    ∃ tpv cpv : ℚ,
      tpv = total_portfolio_value st.cash st.positions prices
      ∧ cpv = |((List.lookup t st.positions).getD ⟨0, 0⟩).long * p
                - ((List.lookup t st.positions).getD ⟨0, 0⟩).short * p|
      ∧ List.lookup t (get_risk_data st prices)
          = some { remaining_position_limit := min (tpv * (20/100) - cpv) st.cash,
                   current_price := p,
                   reasoning := RiskReasoning.limits tpv cpv (tpv * (20/100))
                     (tpv * (20/100) - cpv) st.cash }
      ∧ (st.cash < tpv * (20/100) - cpv →
          List.lookup t (get_risk_data st prices)
            = some { remaining_position_limit := st.cash,
                     current_price := p,
                     reasoning := RiskReasoning.limits tpv cpv (tpv * (20/100))
                       (tpv * (20/100) - cpv) st.cash }) := by
  refine ⟨_, _, rfl, rfl, ?_, ?_⟩
  · rw [lookup_get_risk_data st prices t ht]
    simp only [riskRecordFor, hp]
  · intro hlt
    rw [lookup_get_risk_data st prices t ht]
    simp only [riskRecordFor, hp]
    have : min (total_portfolio_value st.cash st.positions prices * (20/100)
        - |((List.lookup t st.positions).getD ⟨0, 0⟩).long * p
           - ((List.lookup t st.positions).getD ⟨0, 0⟩).short * p|) st.cash = st.cash :=
      min_eq_right (le_of_lt hlt)
    rw [this]

/-- Witness for C10: cash 100 is below the 10020 uncapped remaining limit of
ticker B, so the recorded field equals the cash amount. -/
theorem C10_witness :
    List.lookup "B" (get_risk_data ⟨["A", "B"], 100, [("A", ⟨1000, 0⟩)]⟩ (fun _ => some 50))
      = some { remaining_position_limit := 100, current_price := 50,
               reasoning := RiskReasoning.limits 50100 0 10020 10020 100 } := by
  obtain ⟨tpv, cpv, h1, h2, h3, h4⟩ :=
    C10_cash_capped ⟨["A", "B"], 100, [("A", ⟨1000, 0⟩)]⟩ (fun _ => some 50) "B" 50
      (by simp) rfl
  have e1 : tpv = 50100 := by
    rw [h1]; norm_num [total_portfolio_value]
  have e2 : cpv = 0 := by
    rw [h2]
    simp only [show (("B" : String) == "A") = false from rfl, RiskState.positions,
      List.lookup]
    norm_num
  rw [e1, e2] at h4
  have h5 := h4 (by norm_num)
  norm_num at h5
  exact h5

/-! ### Financial fact records (inputs fetched from src/tools/api.py) -/

/-- One record of `search_line_items(...)`: every field the two personas in
the source request; absent/`null` values are `none`. -/
structure LineItem where
  revenue : Option ℚ
  operating_margin : Option ℚ
  debt_to_equity : Option ℚ
  free_cash_flow : Option ℚ
  total_assets : Option ℚ
  total_liabilities : Option ℚ
  dividends_and_other_cash_distributions : Option ℚ
  outstanding_shares : Option ℚ
  net_income : Option ℚ
  total_debt : Option ℚ
  cash_and_equivalents : Option ℚ
  issuance_or_purchase_of_equity_shares : Option ℚ
deriving Repr, DecidableEq

/-- A line item with every field absent. -/
def emptyLineItem : LineItem :=
  ⟨none, none, none, none, none, none, none, none, none, none, none, none⟩

/-- One record of `get_financial_metrics(...)`: the fields the two personas
read. -/
structure MetricsRecord where
  return_on_equity : Option ℚ
  ev_to_ebit : Option ℚ
  debt_to_equity : Option ℚ
deriving Repr, DecidableEq

/-- One record of `get_insider_trades(...)`. -/
structure InsiderTrade where
  transaction_shares : Option ℤ
deriving Repr, DecidableEq

/-- One record of `get_company_news(...)`. -/
structure NewsItem where
  sentiment : Option String
deriving Repr, DecidableEq

/-- Python `str.lower()`. -/
def lowerStr (s : String) : String := ⟨s.data.map Char.toLower⟩

/-! ### Bill Ackman sub-analyses (src/plugins/bill_ackman.py) -/

/-- An Ackman sub-analysis result: `{"score": ..., "details": ...}`. -/
structure SubA where
  score : ℕ
  details : String
deriving Repr, DecidableEq

/-- Block 1 of `analyze_business_quality`: multi-period revenue growth
(`initial, final = revenues[-1], revenues[0]`; the `if initial and final and
final > initial` guard uses Python truthiness, so a zero value is falsy). -/
def abq_revenue (financial_line_items : List LineItem) : ℕ × List String :=
  let revenues := financial_line_items.filterMap (fun item => item.revenue)
  if revenues.length ≥ 2 then
    let initial := revenues.getLast?.getD 0
    let final := revenues.head?.getD 0
    if initial ≠ 0 ∧ final ≠ 0 ∧ final > initial then
      let growth_rate := (final - initial) / |initial|
      if growth_rate > 1/2 then
        (2, ["Revenue grew by " ++ ratStr (growth_rate * 100)
              ++ "% over the full period (strong growth)."])
      else
        (1, ["Revenue growth is positive but under 50% cumulatively ("
              ++ ratStr (growth_rate * 100) ++ "%)."])
    else (0, ["Revenue did not grow significantly or data insufficient."])
  else (0, ["Not enough revenue data for multi-period trend."])

/-- Block 2a of `analyze_business_quality`: operating-margin consistency
(strict majority of periods above 15%). -/
def abq_margins (financial_line_items : List LineItem) : ℕ × List String :=
  let op_margin_vals := financial_line_items.filterMap (fun item => item.operating_margin)
  if op_margin_vals = [] then (0, ["No operating margin data across periods."])
  else
    let above_15 := (op_margin_vals.filter (fun m => m > 15/100)).length
    if above_15 ≥ op_margin_vals.length / 2 + 1 then
      (2, ["Operating margins have often exceeded 15% (indicates good profitability)."])
    else (0, ["Operating margin not consistently above 15%."])

/-- Block 2b of `analyze_business_quality`: free-cash-flow consistency. -/
def abq_fcf (financial_line_items : List LineItem) : ℕ × List String :=
  let fcf_vals := financial_line_items.filterMap (fun item => item.free_cash_flow)
  if fcf_vals = [] then (0, ["No free cash flow data across periods."])
  else
    let positive_fcf_count := (fcf_vals.filter (fun f => f > 0)).length
    if positive_fcf_count ≥ fcf_vals.length / 2 + 1 then
      (1, ["Majority of periods show positive free cash flow."])
    else (0, ["Free cash flow not consistently positive."])

/-- Block 3 of `analyze_business_quality`: ROE of the latest metrics record
(`if latest_metrics.return_on_equity and ... > 0.15`: a zero or absent ROE
is falsy). -/
def abq_roe (latest_metrics : MetricsRecord) : ℕ × List String :=
  match latest_metrics.return_on_equity with
  | some r =>
      if r ≠ 0 ∧ r > 15/100 then
        (2, ["High ROE of " ++ ratStr r ++ ", indicating a competitive advantage."])
      else if r ≠ 0 then (0, ["ROE of " ++ ratStr r ++ " is moderate."])
      else (0, ["ROE data not available."])
  | none => (0, ["ROE data not available."])

/-- Embeds `analyze_business_quality(metrics, financial_line_items)`. -/
def analyze_business_quality (metrics : List MetricsRecord)
    (financial_line_items : List LineItem) : SubA :=
  match metrics, financial_line_items with
  | [], _ => ⟨0, "Insufficient data to analyze business quality"⟩
  | _, [] => ⟨0, "Insufficient data to analyze business quality"⟩
  | latest_metrics :: _, item0 :: rest =>
      let items := item0 :: rest
      let r := abq_revenue items
      let m := abq_margins items
      let f := abq_fcf items
      let e := abq_roe latest_metrics
      ⟨r.1 + m.1 + f.1 + e.1,
        String.intercalate "; " (r.2 ++ m.2 ++ f.2 ++ e.2)⟩

/-- Block 1 of `analyze_financial_discipline`: leverage, with a
liabilities-to-assets fallback (Python truthiness on both fields plus
`total_assets > 0`). -/
def afd_leverage (financial_line_items : List LineItem) : ℕ × List String :=
  let debt_to_equity_vals : List ℚ := financial_line_items.filterMap (fun item => item.debt_to_equity)
  if debt_to_equity_vals ≠ [] then
    let below_one_count := (debt_to_equity_vals.filter (fun d => d < 1)).length
    if below_one_count ≥ debt_to_equity_vals.length / 2 + 1 then
      (2, ["Debt-to-equity < 1.0 for the majority of periods (reasonable leverage)."])
    else (0, ["Debt-to-equity >= 1.0 in many periods (could be high leverage)."])
  else
    let liab_to_assets : List ℚ := financial_line_items.filterMap (fun item =>
      match item.total_liabilities, item.total_assets with
      | some l, some a => if l ≠ 0 ∧ a ≠ 0 ∧ a > 0 then some (l / a) else none
      | _, _ => none)
    if liab_to_assets ≠ [] then
      let below_50pct_count := (liab_to_assets.filter (fun r => r < 1/2)).length
      if below_50pct_count ≥ liab_to_assets.length / 2 + 1 then
        (2, ["Liabilities-to-assets < 50% for majority of periods."])
      else (0, ["Liabilities-to-assets >= 50% in many periods."])
    else (0, ["No consistent leverage ratio data available."])

/-- Block 2a of `analyze_financial_discipline`: dividend history (payments
are recorded as negative cash distributions). -/
def afd_dividends (financial_line_items : List LineItem) : ℕ × List String :=
  let dividends_list : List ℚ := financial_line_items.filterMap
    (fun item => item.dividends_and_other_cash_distributions)
  if dividends_list ≠ [] then
    let paying_dividends_count := (dividends_list.filter (fun d => d < 0)).length
    if paying_dividends_count ≥ dividends_list.length / 2 + 1 then
      (1, ["Company has a history of returning capital to shareholders (dividends)."])
    else (0, ["Dividends not consistently paid or no data on distributions."])
  else (0, ["No dividend data found across periods."])

/-- Block 2b of `analyze_financial_discipline`: decreasing share count. -/
def afd_buybacks (financial_line_items : List LineItem) : ℕ × List String :=
  let shares := financial_line_items.filterMap (fun item => item.outstanding_shares)
  if shares.length ≥ 2 then
    if shares.head?.getD 0 < shares.getLast?.getD 0 then
      (1, ["Outstanding shares have decreased over time (possible buybacks)."])
    else (0, ["Outstanding shares have not decreased over the available periods."])
  else (0, ["No multi-period share count data to assess buybacks."])

/-- Embeds `analyze_financial_discipline(metrics, financial_line_items)`. -/
def analyze_financial_discipline (metrics : List MetricsRecord)
    (financial_line_items : List LineItem) : SubA :=
  match metrics, financial_line_items with
  | [], _ => ⟨0, "Insufficient data to analyze financial discipline"⟩
  | _, [] => ⟨0, "Insufficient data to analyze financial discipline"⟩
  | _ :: _, item0 :: rest =>
      let items := item0 :: rest
      let l := afd_leverage items
      let d := afd_dividends items
      let b := afd_buybacks items
      ⟨l.1 + d.1 + b.1, String.intercalate "; " (l.2 ++ d.2 ++ b.2)⟩

/-- Embeds `analyze_activism_potential(financial_line_items)`. -/
def analyze_activism_potential (financial_line_items : List LineItem) : SubA :=
  match financial_line_items with
  | [] => ⟨0, "Insufficient data for activism potential"⟩
  | _ :: _ =>
      let revenues := financial_line_items.filterMap (fun item => item.revenue)
      let op_margins := financial_line_items.filterMap (fun item => item.operating_margin)
      if revenues.length < 2 ∨ op_margins = [] then
        ⟨0, "Not enough data to assess activism potential (need multi-year revenue + margins)."⟩
      else
        let initial := revenues.getLast?.getD 0
        let final := revenues.head?.getD 0
        let revenue_growth := if initial ≠ 0 then (final - initial) / |initial| else 0
        let avg_margin := op_margins.sum / (op_margins.length : ℚ)
        if revenue_growth > 15/100 ∧ avg_margin < 1/10 then
          ⟨2, "Revenue growth is healthy (~" ++ ratStr (revenue_growth * 100)
              ++ "%), but margins are low (avg " ++ ratStr (avg_margin * 100)
              ++ "%). Activism could unlock margin improvements."⟩
        else
          ⟨0, "No clear sign of activism opportunity (either margins are already decent or growth is weak)."⟩

/-- Result dict of `analyze_valuation`; the two fields that are absent in the
insufficient-data returns are modelled as `none`. -/
structure ValuationA where
  score : ℕ
  details : String
  intrinsic_value : Option ℚ
  margin_of_safety : Option ℚ
deriving Repr, DecidableEq

/-- Embeds `analyze_valuation(financial_line_items, market_cap)`. A `none` result
models the `ZeroDivisionError` the source raises at
`margin_of_safety = (intrinsic_value - market_cap) / market_cap` when
`market_cap == 0` (zero passes the `market_cap is None` guard). -/
def analyze_valuation (financial_line_items : List LineItem)
    (market_cap : Option ℚ) : Option ValuationA :=
  match financial_line_items, market_cap with
  | [], _ => some ⟨0, "Insufficient data to perform valuation", none, none⟩
  | _ :: _, none => some ⟨0, "Insufficient data to perform valuation", none, none⟩
  | latest :: _, some mc =>
      let fcf := match latest.free_cash_flow with
        | some v => if v ≠ 0 then v else 0
        | none => 0
      if fcf ≤ 0 then
        some ⟨0, "No positive FCF for valuation; FCF = " ++ ratStr fcf, none, none⟩
      else
        let growth_rate : ℚ := 6/100
        let discount_rate : ℚ := 10/100
        let terminal_multiple : ℚ := 15
        let projection_years : ℕ := 5
        let present_value := (List.range projection_years).foldl
          (fun acc year =>
            let future_fcf := fcf * (1 + growth_rate) ^ (year + 1)
            acc + future_fcf / (1 + discount_rate) ^ (year + 1)) 0
        let terminal_value := fcf * (1 + growth_rate) ^ projection_years
          * terminal_multiple / (1 + discount_rate) ^ projection_years
        let intrinsic_value := present_value + terminal_value
        if mc = 0 then none
        else
          let margin_of_safety := (intrinsic_value - mc) / mc
          let score : ℕ := if margin_of_safety > 3/10 then 3
            else if margin_of_safety > 1/10 then 1 else 0
          some ⟨score,
            "Calculated intrinsic value: ~" ++ ratStr intrinsic_value
              ++ "; Market cap: ~" ++ ratStr mc
              ++ "; Margin of safety: " ++ ratStr margin_of_safety,
            some intrinsic_value, some margin_of_safety⟩

/-- The per-ticker record `AnalysisDataPlugin4BillAckman.get_analysis_data`
builds (`analysis_data[ticker]`). -/
structure AckmanSignalRecord where
  signal : String
  score : ℕ
  max_score : ℕ
  quality_analysis : SubA
  balance_sheet_analysis : SubA
  activism_analysis : SubA
  valuation_analysis : ValuationA
deriving Repr, DecidableEq

/-- The scoring core of `AnalysisDataPlugin4BillAckman.get_analysis_data`:
sums the four sub-analysis scores against `max_possible_score = 20` and
classifies with the 0.7/0.3 thresholds. `none` propagates the
`ZeroDivisionError` of `analyze_valuation`. -/
def ackman_analysis (metrics : List MetricsRecord)
    (financial_line_items : List LineItem) (market_cap : Option ℚ) :
    Option AckmanSignalRecord :=
  let quality_analysis := analyze_business_quality metrics financial_line_items
  let balance_sheet_analysis := analyze_financial_discipline metrics financial_line_items
  let activism_analysis := analyze_activism_potential financial_line_items
  match analyze_valuation financial_line_items market_cap with
  | none => none
  | some valuation_analysis =>
      let total_score := quality_analysis.score + balance_sheet_analysis.score
        + activism_analysis.score + valuation_analysis.score
      let max_possible_score : ℕ := 20
      let signal : String :=
        if (total_score : ℚ) ≥ 7/10 * (max_possible_score : ℚ) then "bullish"
        else if (total_score : ℚ) ≤ 3/10 * (max_possible_score : ℚ) then "bearish"
        else "neutral"
      some ⟨signal, total_score, max_possible_score, quality_analysis,
        balance_sheet_analysis, activism_analysis, valuation_analysis⟩

/-! ### Michael Burry sub-analyses (src/plugins/michael_burry.py) -/

/-- A Burry sub-analysis result:
`{"score": ..., "max_score": ..., "details": ...}`. -/
structure SubB where
  score : ℕ
  max_score : ℕ
  details : String
deriving Repr, DecidableEq

/-- FCF-yield block of `_analyze_value` (the guard
`if fcf is not None and market_cap:` uses truthiness, so a zero market cap
skips the yield computation). -/
def burry_value_fcf (line_items : List LineItem) (market_cap : Option ℚ) :
    ℕ × List String :=
  let fcf : Option ℚ := match line_items.head? with
    | some latest_item => latest_item.free_cash_flow
    | none => none
  match fcf, market_cap with
  | some f, some mc =>
      if mc ≠ 0 then
        let fcf_yield := f / mc
        if fcf_yield ≥ 15/100 then (4, ["Extraordinary FCF yield " ++ ratStr fcf_yield])
        else if fcf_yield ≥ 12/100 then (3, ["Very high FCF yield " ++ ratStr fcf_yield])
        else if fcf_yield ≥ 8/100 then (2, ["Respectable FCF yield " ++ ratStr fcf_yield])
        else (0, ["Low FCF yield " ++ ratStr fcf_yield])
      else (0, ["FCF data unavailable"])
  | _, _ => (0, ["FCF data unavailable"])

/-- EV/EBIT block of `_analyze_value`. -/
def burry_value_ev (metrics : List MetricsRecord) : ℕ × List String :=
  match metrics.head? with
  | some m0 =>
      match m0.ev_to_ebit with
      | some ev_ebit =>
          if ev_ebit < 6 then (2, ["EV/EBIT " ++ ratStr ev_ebit ++ " (<6)"])
          else if ev_ebit < 10 then (1, ["EV/EBIT " ++ ratStr ev_ebit ++ " (<10)"])
          else (0, ["High EV/EBIT " ++ ratStr ev_ebit])
      | none => (0, ["EV/EBIT data unavailable"])
  | none => (0, ["Financial metrics unavailable"])

/-- Embeds `_analyze_value(metrics, line_items, market_cap)`: max score 6. -/
def burry_analyze_value (metrics : List MetricsRecord) (line_items : List LineItem)
    (market_cap : Option ℚ) : SubB :=
  let a := burry_value_fcf line_items market_cap
  let b := burry_value_ev metrics
  ⟨a.1 + b.1, 6, String.intercalate "; " (a.2 ++ b.2)⟩

/-- Debt-to-equity block of `_analyze_balance_sheet`. -/
def burry_balance_de (metrics : List MetricsRecord) : ℕ × List String :=
  let debt_to_equity : Option ℚ := match metrics.head? with
    | some latest_metrics => latest_metrics.debt_to_equity
    | none => none
  match debt_to_equity with
  | some d =>
      if d < 1/2 then (2, ["Low D/E " ++ ratStr d])
      else if d < 1 then (1, ["Moderate D/E " ++ ratStr d])
      else (0, ["High leverage D/E " ++ ratStr d])
  | none => (0, ["Debt-to-equity data unavailable"])

/-- Liquidity block of `_analyze_balance_sheet`: runs only when a latest
line item exists (no detail at all otherwise). -/
def burry_balance_liquidity (line_items : List LineItem) : ℕ × List String :=
  match line_items.head? with
  | none => (0, [])
  | some latest_item =>
      match latest_item.cash_and_equivalents, latest_item.total_debt with
      | some cash, some total_debt =>
          if cash > total_debt then (1, ["Net cash position"])
          else (0, ["Net debt position"])
      | _, _ => (0, ["Cash/debt data unavailable"])

/-- Embeds `_analyze_balance_sheet(metrics, line_items)`: max score 3. -/
def burry_analyze_balance_sheet (metrics : List MetricsRecord)
    (line_items : List LineItem) : SubB :=
  let a := burry_balance_de metrics
  let b := burry_balance_liquidity line_items
  ⟨a.1 + b.1, 3, String.intercalate "; " (a.2 ++ b.2)⟩

/-- Embeds `_analyze_insider_activity(insider_trades)`: max score 2; net
buying scores 2 when `net / max(shares_sold, 1) > 1` and 1 otherwise. -/
def burry_analyze_insider_activity (insider_trades : List InsiderTrade) : SubB :=
  match insider_trades with
  | [] => ⟨0, 2, "No insider trade data"⟩
  | _ :: _ =>
      let vals : List ℤ := insider_trades.map (fun t => t.transaction_shares.getD 0)
      let shares_bought : ℤ := (vals.filter (fun v => v > 0)).sum
      let shares_sold : ℤ := |(vals.filter (fun v => v < 0)).sum|
      let net : ℤ := shares_bought - shares_sold
      if net > 0 then
        let score : ℕ := if (net : ℚ) / ((max shares_sold 1 : ℤ) : ℚ) > 1 then 2 else 1
        ⟨score, 2, "Net insider buying of " ++ toString net ++ " shares"⟩
      else ⟨0, 2, "Net insider selling"⟩

/-- Embeds `_analyze_contrarian_sentiment(news)`: max score 1 (the guard
`if n.sentiment and ...` treats an absent or empty string as falsy). -/
def burry_analyze_contrarian_sentiment (news : List NewsItem) : SubB :=
  match news with
  | [] => ⟨0, 1, "No recent news"⟩
  | _ :: _ =>
      let sentiment_negative_count := news.countP (fun n =>
        match n.sentiment with
        | some s => (s != "") && (lowerStr s == "negative" || lowerStr s == "bearish")
        | none => false)
      if sentiment_negative_count ≥ 5 then
        ⟨1, 1, toString sentiment_negative_count
            ++ " negative headlines (contrarian opportunity)"⟩
      else ⟨0, 1, "Limited negative press"⟩

/-- The per-ticker record
`AnalysisDataPlugin4MichaelBurry.get_analysis_data` builds. -/
structure BurrySignalRecord where
  signal : String
  score : ℕ
  max_score : ℕ
  value_analysis : SubB
  balance_sheet_analysis : SubB
  insider_analysis : SubB
  contrarian_analysis : SubB
  market_cap : Option ℚ
deriving Repr, DecidableEq

/-- The scoring core of
`AnalysisDataPlugin4MichaelBurry.get_analysis_data`: totals the four
sub-scores and sub-max-scores and classifies with the 0.7/0.3 thresholds. -/
def burry_analysis (metrics : List MetricsRecord) (line_items : List LineItem)
    (insider_trades : List InsiderTrade) (news : List NewsItem)
    (market_cap : Option ℚ) : BurrySignalRecord :=
  let value_analysis := burry_analyze_value metrics line_items market_cap
  let balance_sheet_analysis := burry_analyze_balance_sheet metrics line_items
  let insider_analysis := burry_analyze_insider_activity insider_trades
  let contrarian_analysis := burry_analyze_contrarian_sentiment news
  let total_score := value_analysis.score + balance_sheet_analysis.score
    + insider_analysis.score + contrarian_analysis.score
  let max_score := value_analysis.max_score + balance_sheet_analysis.max_score
    + insider_analysis.max_score + contrarian_analysis.max_score
  let signal : String :=
    if (total_score : ℚ) ≥ 7/10 * (max_score : ℚ) then "bullish"
    else if (total_score : ℚ) ≤ 3/10 * (max_score : ℚ) then "bearish"
    else "neutral"
  ⟨signal, total_score, max_score, value_analysis, balance_sheet_analysis,
    insider_analysis, contrarian_analysis, market_cap⟩

/-- The uniform threshold rule of §4.2: bullish at or above 70% of the
maximum, bearish at or below 30%, neutral in between. -/
def signalFromScore (total_score max_score : ℚ) : String :=
  if total_score ≥ 7/10 * max_score then "bullish"
  else if total_score ≤ 3/10 * max_score then "bearish"
  else "neutral"

theorem signalFromScore_iff (t m : ℚ) (hm : 0 < m) :
    ((signalFromScore t m = "bullish") ↔ t ≥ 7/10 * m)
    ∧ ((signalFromScore t m = "bearish") ↔ t ≤ 3/10 * m)
    ∧ ((signalFromScore t m = "neutral") ↔ ¬ t ≥ 7/10 * m ∧ ¬ t ≤ 3/10 * m) := by
  unfold signalFromScore
  split_ifs with h1 h2
  · exact ⟨by simpa using h1,
      ⟨fun h => by simp at h, fun hle => absurd h1 (by nlinarith)⟩,
      ⟨fun h => by simp at h, fun hn => absurd h1 hn.1⟩⟩
  · exact ⟨⟨fun h => by simp at h, fun hge => absurd hge h1⟩,
      by simpa using h2,
      ⟨fun h => by simp at h, fun hn => absurd h2 hn.2⟩⟩
  · exact ⟨⟨fun h => by simp at h, fun hge => absurd hge h1⟩,
      ⟨fun h => by simp at h, fun hle => absurd hle h2⟩,
      by simp [h1, h2]⟩

theorem ackman_analysis_record (metrics : List MetricsRecord)
    (financial_line_items : List LineItem) (market_cap : Option ℚ)
    (r : AckmanSignalRecord)
    (h : ackman_analysis metrics financial_line_items market_cap = some r) :
    r.max_score = 20
    ∧ r.signal = signalFromScore (r.score : ℚ) (r.max_score : ℚ) := by
  unfold ackman_analysis at h
  cases hv : analyze_valuation financial_line_items market_cap with
  | none => rw [hv] at h; cases h
  | some v =>
      rw [hv] at h
      simp only [Option.some.injEq] at h
      subst h
      exact ⟨rfl, rfl⟩

theorem burry_insider_max (insider_trades : List InsiderTrade) :
    (burry_analyze_insider_activity insider_trades).max_score = 2 := by
  unfold burry_analyze_insider_activity
  cases insider_trades with
  | nil => rfl
  | cons a l => simp only []; split_ifs <;> rfl

theorem burry_contrarian_max (news : List NewsItem) :
    (burry_analyze_contrarian_sentiment news).max_score = 1 := by
  unfold burry_analyze_contrarian_sentiment
  cases news with
  | nil => rfl
  | cons a l => simp only []; split_ifs <;> rfl

theorem burry_analysis_record (metrics : List MetricsRecord)
    (line_items : List LineItem) (insider_trades : List InsiderTrade)
    (news : List NewsItem) (market_cap : Option ℚ) :
    (burry_analysis metrics line_items insider_trades news market_cap).max_score = 12
    ∧ (burry_analysis metrics line_items insider_trades news market_cap).signal
        = signalFromScore
            ((burry_analysis metrics line_items insider_trades news market_cap).score : ℚ)
            ((burry_analysis metrics line_items insider_trades news market_cap).max_score : ℚ) := by
  constructor
  · show (burry_analyze_value metrics line_items market_cap).max_score
      + (burry_analyze_balance_sheet metrics line_items).max_score
      + (burry_analyze_insider_activity insider_trades).max_score
      + (burry_analyze_contrarian_sentiment news).max_score = 12
    rw [burry_insider_max, burry_contrarian_max]
    rfl
  · rfl

theorem burry_max_eq_12 (metrics : List MetricsRecord)
    (line_items : List LineItem) (insider_trades : List InsiderTrade)
    (news : List NewsItem) (market_cap : Option ℚ) :
    (burry_analysis metrics line_items insider_trades news market_cap).max_score = 12 := by
  show (burry_analyze_value metrics line_items market_cap).max_score
      + (burry_analyze_balance_sheet metrics line_items).max_score
      + (burry_analyze_insider_activity insider_trades).max_score
      + (burry_analyze_contrarian_sentiment news).max_score = 12
  rw [burry_insider_max, burry_contrarian_max]
  rfl

/-- Claim C3: for both personas present in the source the emitted signal is
bullish iff `total_score ≥ 0.7·max_score`, bearish iff
`total_score ≤ 0.3·max_score`, neutral otherwise; both personas instantiate
the single shared rule `signalFromScore` with the same 0.7/0.3 constants
(no per-persona special-casing); and all-zero sub-scores still yield a
valid signal ("bearish"), never an error. -/
theorem C3_signal_thresholds :
    (∀ (metrics : List MetricsRecord) (items : List LineItem) (mc : Option ℚ)
        (r : AckmanSignalRecord), ackman_analysis metrics items mc = some r →
      r.max_score = 20
      ∧ r.signal = signalFromScore (r.score : ℚ) (r.max_score : ℚ)
      ∧ ((r.signal = "bullish") ↔ (r.score : ℚ) ≥ 7/10 * (r.max_score : ℚ))
      ∧ ((r.signal = "bearish") ↔ (r.score : ℚ) ≤ 3/10 * (r.max_score : ℚ))
      ∧ ((r.signal = "neutral") ↔
          ¬ (r.score : ℚ) ≥ 7/10 * (r.max_score : ℚ)
          ∧ ¬ (r.score : ℚ) ≤ 3/10 * (r.max_score : ℚ)))
    ∧ (∀ (metrics : List MetricsRecord) (items : List LineItem)
        (trades : List InsiderTrade) (news : List NewsItem) (mc : Option ℚ),
      (burry_analysis metrics items trades news mc).max_score = 12
      ∧ (burry_analysis metrics items trades news mc).signal
          = signalFromScore ((burry_analysis metrics items trades news mc).score : ℚ)
              ((burry_analysis metrics items trades news mc).max_score : ℚ)
      ∧ (((burry_analysis metrics items trades news mc).signal = "bullish") ↔
          ((burry_analysis metrics items trades news mc).score : ℚ)
            ≥ 7/10 * ((burry_analysis metrics items trades news mc).max_score : ℚ))
      ∧ (((burry_analysis metrics items trades news mc).signal = "bearish") ↔
          ((burry_analysis metrics items trades news mc).score : ℚ)
            ≤ 3/10 * ((burry_analysis metrics items trades news mc).max_score : ℚ))
      ∧ (((burry_analysis metrics items trades news mc).signal = "neutral") ↔
          ¬ ((burry_analysis metrics items trades news mc).score : ℚ)
              ≥ 7/10 * ((burry_analysis metrics items trades news mc).max_score : ℚ)
          ∧ ¬ ((burry_analysis metrics items trades news mc).score : ℚ)
              ≤ 3/10 * ((burry_analysis metrics items trades news mc).max_score : ℚ)))
    ∧ (∃ r0 : AckmanSignalRecord, ackman_analysis [] [] none = some r0
        ∧ r0.score = 0 ∧ r0.signal = "bearish")
    ∧ (burry_analysis [] [] [] [] none).score = 0
    ∧ (burry_analysis [] [] [] [] none).signal = "bearish" := by
  refine ⟨?_, ?_, ?_, ?_, ?_⟩
  · intro metrics items mc r h
    obtain ⟨hmax, hsig⟩ := ackman_analysis_record metrics items mc r h
    have hm : (0:ℚ) < (r.max_score : ℚ) := by rw [hmax]; norm_num
    obtain ⟨i1, i2, i3⟩ := signalFromScore_iff (r.score : ℚ) (r.max_score : ℚ) hm
    rw [hsig]
    exact ⟨hmax, rfl, i1, i2, i3⟩
  · intro metrics items trades news mc
    obtain ⟨hmax, hsig⟩ := burry_analysis_record metrics items trades news mc
    have hm : (0:ℚ) < ((burry_analysis metrics items trades news mc).max_score : ℚ) := by
      rw [hmax]; norm_num
    obtain ⟨i1, i2, i3⟩ := signalFromScore_iff
      ((burry_analysis metrics items trades news mc).score : ℚ)
      ((burry_analysis metrics items trades news mc).max_score : ℚ) hm
    rw [hsig]
    exact ⟨hmax, rfl, i1, i2, i3⟩
  · refine ⟨⟨"bearish", 0, 20,
      ⟨0, "Insufficient data to analyze business quality"⟩,
      ⟨0, "Insufficient data to analyze financial discipline"⟩,
      ⟨0, "Insufficient data for activism potential"⟩,
      ⟨0, "Insufficient data to perform valuation", none, none⟩⟩, ?_, rfl, rfl⟩
    norm_num [ackman_analysis, analyze_valuation, analyze_business_quality,
      analyze_financial_discipline, analyze_activism_potential]
  · rfl
  · norm_num [burry_analysis, burry_analyze_value, burry_value_fcf, burry_value_ev,
      burry_analyze_balance_sheet, burry_balance_de, burry_balance_liquidity,
      burry_analyze_insider_activity, burry_analyze_contrarian_sentiment]

/-- Witness for C3: the empty-input Ackman record satisfies the bullish
threshold characterisation. -/
theorem C3_witness :
    ∃ r0 : AckmanSignalRecord, ackman_analysis [] [] none = some r0
      ∧ ((r0.signal = "bullish") ↔ (r0.score : ℚ) ≥ 7/10 * (r0.max_score : ℚ)) := by
  have heval : ackman_analysis [] [] none = some ⟨"bearish", 0, 20,
      ⟨0, "Insufficient data to analyze business quality"⟩,
      ⟨0, "Insufficient data to analyze financial discipline"⟩,
      ⟨0, "Insufficient data for activism potential"⟩,
      ⟨0, "Insufficient data to perform valuation", none, none⟩⟩ := by
    norm_num [ackman_analysis, analyze_valuation, analyze_business_quality,
      analyze_financial_discipline, analyze_activism_potential]
  exact ⟨_, heval, (C3_signal_thresholds.1 [] [] none _ heval).2.2.1⟩

theorem abq_revenue_le (items : List LineItem) : (abq_revenue items).1 ≤ 2 := by
  simp only [abq_revenue]
  split_ifs <;> simp

theorem abq_margins_le (items : List LineItem) : (abq_margins items).1 ≤ 2 := by
  simp only [abq_margins]
  split_ifs <;> simp

theorem abq_fcf_le (items : List LineItem) : (abq_fcf items).1 ≤ 1 := by
  simp only [abq_fcf]
  split_ifs <;> simp

theorem abq_roe_le (m0 : MetricsRecord) : (abq_roe m0).1 ≤ 2 := by
  cases h : m0.return_on_equity with
  | none => simp [abq_roe, h]
  | some r =>
      simp only [abq_roe, h]
      split_ifs <;> simp

theorem analyze_business_quality_le (metrics : List MetricsRecord)
    (items : List LineItem) : (analyze_business_quality metrics items).score ≤ 7 := by
  cases metrics with
  | nil => simp [analyze_business_quality]
  | cons m0 mrest =>
      cases items with
      | nil => simp [analyze_business_quality]
      | cons i0 irest =>
          have h1 := abq_revenue_le (i0 :: irest)
          have h2 := abq_margins_le (i0 :: irest)
          have h3 := abq_fcf_le (i0 :: irest)
          have h4 := abq_roe_le m0
          simp only [analyze_business_quality]
          omega

theorem afd_leverage_le (items : List LineItem) : (afd_leverage items).1 ≤ 2 := by
  simp only [afd_leverage]
  split_ifs <;> simp

theorem afd_dividends_le (items : List LineItem) : (afd_dividends items).1 ≤ 1 := by
  simp only [afd_dividends]
  split_ifs <;> simp

theorem afd_buybacks_le (items : List LineItem) : (afd_buybacks items).1 ≤ 1 := by
  simp only [afd_buybacks]
  split_ifs <;> simp

theorem analyze_financial_discipline_le (metrics : List MetricsRecord)
    (items : List LineItem) : (analyze_financial_discipline metrics items).score ≤ 4 := by
  cases metrics with
  | nil => simp [analyze_financial_discipline]
  | cons m0 mrest =>
      cases items with
      | nil => simp [analyze_financial_discipline]
      | cons i0 irest =>
          have h1 := afd_leverage_le (i0 :: irest)
          have h2 := afd_dividends_le (i0 :: irest)
          have h3 := afd_buybacks_le (i0 :: irest)
          simp only [analyze_financial_discipline]
          omega

theorem analyze_activism_potential_le (items : List LineItem) :
    (analyze_activism_potential items).score ≤ 2 := by
  cases items with
  | nil => simp [analyze_activism_potential]
  | cons i0 irest =>
      simp only [analyze_activism_potential]
      split_ifs <;> simp

theorem analyze_valuation_le (items : List LineItem) (mc : Option ℚ)
    (v : ValuationA) (h : analyze_valuation items mc = some v) : v.score ≤ 3 := by
  unfold analyze_valuation at h
  cases items with
  | nil =>
      simp only [Option.some.injEq] at h
      subst h; simp
  | cons latest rest =>
      cases mc with
      | none =>
          simp only [Option.some.injEq] at h
          subst h; simp
      | some m =>
          simp only [] at h
          split_ifs at h with h1 h2 h3 h4
          · simp only [Option.some.injEq] at h; subst h; simp
          · simp only [Option.some.injEq] at h; subst h; simp
          · simp only [Option.some.injEq] at h; subst h; simp
          · simp only [Option.some.injEq] at h; subst h; simp

theorem ackman_analysis_score_le (metrics : List MetricsRecord)
    (items : List LineItem) (mc : Option ℚ) (r : AckmanSignalRecord)
    (h : ackman_analysis metrics items mc = some r) : r.score ≤ r.max_score := by
  unfold ackman_analysis at h
  cases hv : analyze_valuation items mc with
  | none => rw [hv] at h; cases h
  | some v =>
      rw [hv] at h
      simp only [Option.some.injEq] at h
      subst h
      have h1 := analyze_business_quality_le metrics items
      have h2 := analyze_financial_discipline_le metrics items
      have h3 := analyze_activism_potential_le items
      have h4 := analyze_valuation_le items mc v hv
      show (analyze_business_quality metrics items).score
          + (analyze_financial_discipline metrics items).score
          + (analyze_activism_potential items).score + v.score ≤ 20
      omega

theorem burry_value_fcf_le (items : List LineItem) (mc : Option ℚ) :
    (burry_value_fcf items mc).1 ≤ 4 := by
  simp only [burry_value_fcf]
  split
  · split_ifs <;> simp
  · simp

theorem burry_value_ev_le (metrics : List MetricsRecord) :
    (burry_value_ev metrics).1 ≤ 2 := by
  simp only [burry_value_ev]
  split
  · split
    · split_ifs <;> simp
    · simp
  · simp

theorem burry_analyze_value_le (metrics : List MetricsRecord)
    (items : List LineItem) (mc : Option ℚ) :
    (burry_analyze_value metrics items mc).score
      ≤ (burry_analyze_value metrics items mc).max_score := by
  have h1 := burry_value_fcf_le items mc
  have h2 := burry_value_ev_le metrics
  show (burry_value_fcf items mc).1 + (burry_value_ev metrics).1 ≤ 6
  omega

theorem burry_balance_de_le (metrics : List MetricsRecord) :
    (burry_balance_de metrics).1 ≤ 2 := by
  simp only [burry_balance_de]
  split
  · split_ifs <;> simp
  · simp

theorem burry_balance_liquidity_le (items : List LineItem) :
    (burry_balance_liquidity items).1 ≤ 1 := by
  simp only [burry_balance_liquidity]
  split
  · simp
  · split
    · split_ifs <;> simp
    · simp

theorem burry_analyze_balance_sheet_le (metrics : List MetricsRecord)
    (items : List LineItem) :
    (burry_analyze_balance_sheet metrics items).score
      ≤ (burry_analyze_balance_sheet metrics items).max_score := by
  have h1 := burry_balance_de_le metrics
  have h2 := burry_balance_liquidity_le items
  show (burry_balance_de metrics).1 + (burry_balance_liquidity items).1 ≤ 3
  omega

theorem burry_insider_le (trades : List InsiderTrade) :
    (burry_analyze_insider_activity trades).score
      ≤ (burry_analyze_insider_activity trades).max_score := by
  unfold burry_analyze_insider_activity
  cases trades with
  | nil => simp
  | cons a l =>
      simp only []
      split_ifs <;> simp

theorem burry_contrarian_le (news : List NewsItem) :
    (burry_analyze_contrarian_sentiment news).score
      ≤ (burry_analyze_contrarian_sentiment news).max_score := by
  unfold burry_analyze_contrarian_sentiment
  cases news with
  | nil => simp
  | cons a l =>
      simp only []
      split_ifs <;> simp

theorem burry_analysis_score_le (metrics : List MetricsRecord)
    (items : List LineItem) (trades : List InsiderTrade) (news : List NewsItem)
    (mc : Option ℚ) :
    (burry_analysis metrics items trades news mc).score
      ≤ (burry_analysis metrics items trades news mc).max_score := by
  have h1 := burry_analyze_value_le metrics items mc
  have h2 := burry_analyze_balance_sheet_le metrics items
  have h3 := burry_insider_le trades
  have h4 := burry_contrarian_le news
  show (burry_analyze_value metrics items mc).score
      + (burry_analyze_balance_sheet metrics items).score
      + (burry_analyze_insider_activity trades).score
      + (burry_analyze_contrarian_sentiment news).score
    ≤ (burry_analyze_value metrics items mc).max_score
      + (burry_analyze_balance_sheet metrics items).max_score
      + (burry_analyze_insider_activity trades).max_score
      + (burry_analyze_contrarian_sentiment news).max_score
  omega

/-- A line item whose only populated field is a positive latest free cash
flow, used to exercise the valuation branch. -/
def fcfOnlyItem : LineItem := { emptyLineItem with free_cash_flow := some 100 }

/-- Claim C4, as stated, is false on the code: for a zero market
capitalization (which passes the `market_cap is None` guard) combined with
a positive latest free cash flow, `analyze_valuation` performs the
unguarded division `(intrinsic_value - market_cap) / market_cap` and the
Python source raises `ZeroDivisionError` instead of returning a result
(modelled here as `none`), so the persona computation fails too. -/
theorem C4_counterexample :
    analyze_valuation [fcfOnlyItem] (some 0) = none
    ∧ ackman_analysis [⟨none, none, none⟩] [fcfOnlyItem] (some 0) = none := by
  have h : analyze_valuation [fcfOnlyItem] (some 0) = none := by
    norm_num [analyze_valuation, fcfOnlyItem, emptyLineItem]
  refine ⟨h, ?_⟩
  unfold ackman_analysis
  rw [h]

/-- Claim C4 (amended: except for `analyze_valuation` on a zero market cap
with positive latest FCF, where the margin-of-safety division is unguarded
and the source raises): every sub-analysis returns a result with
`0 ≤ score ≤ max` for that sub-analysis, persona totals satisfy
`0 ≤ total_score ≤ max_score`, and fully-missing input contributes 0 while
appending an explanatory detail string (scores are naturals, so `0 ≤ score`
holds by type). -/
theorem C4_sub_analysis_bounds :
    (∀ (metrics : List MetricsRecord) (items : List LineItem),
      (analyze_business_quality metrics items).score ≤ 7)
    ∧ (∀ (metrics : List MetricsRecord) (items : List LineItem),
      (analyze_financial_discipline metrics items).score ≤ 4)
    ∧ (∀ items : List LineItem, (analyze_activism_potential items).score ≤ 2)
    ∧ (∀ (items : List LineItem) (mc : Option ℚ) (v : ValuationA),
        analyze_valuation items mc = some v → v.score ≤ 3)
    ∧ (∀ (metrics : List MetricsRecord) (items : List LineItem) (mc : Option ℚ)
        (r : AckmanSignalRecord), ackman_analysis metrics items mc = some r →
        r.score ≤ r.max_score)
    ∧ (∀ (metrics : List MetricsRecord) (items : List LineItem) (mc : Option ℚ),
        (burry_analyze_value metrics items mc).score
          ≤ (burry_analyze_value metrics items mc).max_score)
    ∧ (∀ (metrics : List MetricsRecord) (items : List LineItem),
        (burry_analyze_balance_sheet metrics items).score
          ≤ (burry_analyze_balance_sheet metrics items).max_score)
    ∧ (∀ trades : List InsiderTrade,
        (burry_analyze_insider_activity trades).score
          ≤ (burry_analyze_insider_activity trades).max_score)
    ∧ (∀ news : List NewsItem,
        (burry_analyze_contrarian_sentiment news).score
          ≤ (burry_analyze_contrarian_sentiment news).max_score)
    ∧ (∀ (metrics : List MetricsRecord) (items : List LineItem)
        (trades : List InsiderTrade) (news : List NewsItem) (mc : Option ℚ),
        (burry_analysis metrics items trades news mc).score
          ≤ (burry_analysis metrics items trades news mc).max_score)
    ∧ analyze_business_quality [] []
        = ⟨0, "Insufficient data to analyze business quality"⟩
    ∧ analyze_business_quality [⟨none, none, none⟩] [emptyLineItem]
        = ⟨0, "Not enough revenue data for multi-period trend.; "
            ++ "No operating margin data across periods.; "
            ++ "No free cash flow data across periods.; ROE data not available."⟩
    ∧ burry_analyze_value [] [] none
        = ⟨0, 6, "FCF data unavailable; Financial metrics unavailable"⟩
    ∧ burry_analyze_insider_activity []
        = ⟨0, 2, "No insider trade data"⟩ := by
  refine ⟨analyze_business_quality_le, analyze_financial_discipline_le,
    analyze_activism_potential_le, analyze_valuation_le,
    ackman_analysis_score_le, burry_analyze_value_le,
    burry_analyze_balance_sheet_le, burry_insider_le, burry_contrarian_le,
    burry_analysis_score_le, rfl, ?_, rfl, rfl⟩
  rfl

/-- Witness for C4: the insufficient-data valuation result is bounded by 3,
instantiating the hypothesis-bearing conjunct of the bounds theorem. -/
theorem C4_witness :
    ∃ v : ValuationA, analyze_valuation [] none = some v ∧ v.score ≤ 3 :=
  ⟨⟨0, "Insufficient data to perform valuation", none, none⟩, rfl,
    C4_sub_analysis_bounds.2.2.2.1 [] none
      ⟨0, "Insufficient data to perform valuation", none, none⟩ rfl⟩

theorem intrinsic_value_eq (f : ℚ) :
    (List.range 5).foldl
        (fun acc year => acc + f * (1 + 6/100) ^ (year + 1) / (1 + 10/100) ^ (year + 1)) 0
      + f * (1 + 6/100) ^ 5 * 15 / (1 + 10/100) ^ 5
      = (∑ t in Finset.range 5, f * (106/100) ^ (t + 1) / (110/100) ^ (t + 1))
        + f * (106/100) ^ 5 * 15 / (110/100) ^ 5 := by
  rw [show List.range 5 = [0, 1, 2, 3, 4] from rfl]
  rw [Finset.sum_range_succ, Finset.sum_range_succ, Finset.sum_range_succ,
    Finset.sum_range_succ, Finset.sum_range_succ, Finset.sum_range_zero]
  simp only [List.foldl_cons, List.foldl_nil]
  norm_num

theorem score_band_le (c d : Prop) [Decidable c] [Decidable d] :
    (if c then (3 : ℕ) else if d then 1 else 0) ≤ 3 := by
  split_ifs <;> simp

/-- Claim C5: with growth 0.06, discount 0.10, terminal multiple 15 and a
5-year horizon, a positive latest free cash flow yields
`intrinsic_value = Σ_{t=1..5} fcf·1.06^t/1.10^t + fcf·1.06^5·15/1.10^5` and
`margin_of_safety = (intrinsic_value − market_cap)/market_cap`; a
non-positive fcf yields score 0 with the explicit no-positive-cash-flow
rationale and never raises (the function is pure, so determinism is
inherent to the embedding). -/
theorem C5_valuation (latest : LineItem) (rest : List LineItem) (f : ℚ)
    (hf : latest.free_cash_flow = some f) :
    (∀ m : ℚ, 0 < f → m ≠ 0 →
      ∃ v : ValuationA, analyze_valuation (latest :: rest) (some m) = some v
        ∧ v.intrinsic_value
            = some ((∑ t in Finset.range 5, f * (106/100) ^ (t + 1) / (110/100) ^ (t + 1))
                + f * (106/100) ^ 5 * 15 / (110/100) ^ 5)
        ∧ v.margin_of_safety
            = some (((∑ t in Finset.range 5, f * (106/100) ^ (t + 1) / (110/100) ^ (t + 1))
                + f * (106/100) ^ 5 * 15 / (110/100) ^ 5 - m) / m)
        ∧ v.score ≤ 3)
    ∧ (∀ m : ℚ, f ≤ 0 →
        analyze_valuation (latest :: rest) (some m)
          = some ⟨0, "No positive FCF for valuation; FCF = " ++ ratStr f, none, none⟩) := by
  constructor
  · intro m h0 hm
    have hne : f ≠ 0 := ne_of_gt h0
    have hnle : ¬ f ≤ 0 := not_le.mpr h0
    simp only [analyze_valuation, hf, if_pos hne, if_neg hnle, if_neg hm]
    refine ⟨_, rfl, ?_, ?_, ?_⟩
    · exact congrArg some (intrinsic_value_eq f)
    · exact congrArg (fun x => some ((x - m) / m)) (intrinsic_value_eq f)
    · exact score_band_le _ _
  · intro m hle
    by_cases hf0 : f = 0
    · subst hf0
      norm_num [analyze_valuation, hf]
    · simp only [analyze_valuation, hf, if_pos hf0, if_pos hle]

/-- Witness for C5 at fcf 100 and market cap 1000. -/
theorem C5_witness :
    ∃ v : ValuationA, analyze_valuation [fcfOnlyItem] (some 1000) = some v
      ∧ v.intrinsic_value
          = some ((∑ t in Finset.range 5, (100 : ℚ) * (106/100) ^ (t + 1) / (110/100) ^ (t + 1))
              + 100 * (106/100) ^ 5 * 15 / (110/100) ^ 5)
      ∧ v.margin_of_safety
          = some (((∑ t in Finset.range 5, (100 : ℚ) * (106/100) ^ (t + 1) / (110/100) ^ (t + 1))
              + 100 * (106/100) ^ 5 * 15 / (110/100) ^ 5 - 1000) / 1000)
      ∧ v.score ≤ 3 :=
  (C5_valuation fcfOnlyItem [] 100 rfl).1 1000 (by norm_num) (by norm_num)

/-! ### State store (src/mcp/server.py) and its clients -/

/-- A JSON document, the wire shape of the persisted `AgentState`. -/
inductive JValue where
  | null
  | str (s : String)
  | num (q : ℚ)
  | obj (fields : List (String × JValue))

/-- The bytes of `agent_state.json`: either text that fails `json.load`
or a parsed document. -/
inductive FileContent where
  | invalidJson
  | jsonDoc (j : JValue)

/-- The store: `none` models a missing `agent_state.json`. -/
def StoreFile : Type := Option FileContent

/-- Python `k in data` for a parsed JSON object. -/
def hasKey (fields : List (String × JValue)) (k : String) : Bool :=
  (List.lookup k fields).isSome

/-- Embeds `load_state_from_file()`: `None` when the file is missing, fails to
decode, is not a dict, or lacks the `"data"`/`"metadata"` keys. -/
def load_state_from_file : StoreFile → Option JValue
  | none => none
  | some FileContent.invalidJson => none
  | some (FileContent.jsonDoc j) =>
      match j with
      | JValue.obj fields =>
          if hasKey fields "data" && hasKey fields "metadata" then
            some (JValue.obj fields)
          else none
      | _ => none

/-- Embeds `save_state_to_file(current_state)`: `json.dump` writes `null` for a
`None` state and the document otherwise. -/
def save_state_to_file (current_state : Option JValue) : FileContent :=
  FileContent.jsonDoc (current_state.getD JValue.null)

/-- The MCP `get` tool. -/
def mcp_get (st : StoreFile) : Option JValue :=
  load_state_from_file st

/-- The MCP `set` tool: replaces the whole persisted state. -/
def mcp_set (new_state : Option JValue) (st : StoreFile) : StoreFile :=
  some (save_state_to_file new_state)

/-- Claim C8: `get` on a store with no persisted state, unreadable content,
a non-dict document, or a dict missing the `"data"`/`"metadata"` keys
returns the explicit absent value (never a default-shaped state), and
`set(s)` followed by `get` returns a state equal to `s` whenever `s` is an
object carrying `"data"` and `"metadata"` keys. -/
theorem C8_state_store (st : StoreFile) (fields : List (String × JValue))
    (hd : hasKey fields "data" = true) (hm : hasKey fields "metadata" = true) :
    mcp_get none = none
    ∧ mcp_get (some FileContent.invalidJson) = none
    ∧ (∀ s : String, mcp_get (some (FileContent.jsonDoc (JValue.str s))) = none)
    ∧ (∀ fs : List (String × JValue),
        (hasKey fs "data" && hasKey fs "metadata") = false →
        mcp_get (some (FileContent.jsonDoc (JValue.obj fs))) = none)
    ∧ mcp_get (mcp_set (some (JValue.obj fields)) st) = some (JValue.obj fields) := by
  refine ⟨rfl, rfl, fun s => rfl, ?_, ?_⟩
  · intro fs hfs
    simp [mcp_get, load_state_from_file, hfs]
  · simp [mcp_get, mcp_set, load_state_from_file, save_state_to_file, hd, hm]

/-- Witness for C8: a concrete round trip through `set` then `get`. -/
theorem C8_witness :
    mcp_get (mcp_set (some (JValue.obj
        [("data", JValue.obj []), ("metadata", JValue.obj [])])) none)
      = some (JValue.obj [("data", JValue.obj []), ("metadata", JValue.obj [])]) :=
  (C8_state_store none [("data", JValue.obj []), ("metadata", JValue.obj [])]
    rfl rfl).2.2.2.2

/-- Field access on a parsed JSON object (a Python `state[k]`; a missing
key would raise `KeyError`, modelled as `none`). -/
def jGet : JValue → String → Option JValue
  | JValue.obj fields, k => List.lookup k fields
  | _, _ => none

/-- Embeds `PorfolioDataPlugin.get_porforlio_data`: reads the whole state through
the MCP `get` tool and returns only `state["data"]["portfolio"]`. -/
def get_porforlio_data (st : StoreFile) : Option JValue :=
  match mcp_get st with
  | none => none
  | some state =>
      match jGet state "data" with
      | none => none
      | some data => jGet data "portfolio"

/-- Embeds `AnalysisDataPlugin4BillAckman.get_analysis_data` as a stage acting on
the store: the source performs no `mcp_read_state`/`mcp_upsert_state` call,
so the store passes through unchanged next to the computed record. -/
def ackman_plugin_stage (metrics : List MetricsRecord)
    (financial_line_items : List LineItem) (market_cap : Option ℚ)
    (st : StoreFile) : StoreFile × Option AckmanSignalRecord :=
  (st, ackman_analysis metrics financial_line_items market_cap)

/-- Reads `state["data"]["analyst_signals"][persona]` of the persisted state. -/
def store_analyst_signal (st : StoreFile) (persona : String) : Option JValue :=
  match mcp_get st with
  | none => none
  | some state =>
      match jGet state "data" with
      | none => none
      | some data =>
          match jGet data "analyst_signals" with
          | none => none
          | some signals => jGet signals persona

/-- A concrete persisted state with a portfolio object and one persona's
signal already present under `analyst_signals`. -/
def demoState : JValue :=
  JValue.obj
    [("data", JValue.obj
        [("portfolio", JValue.str "PF"),
         ("analyst_signals", JValue.obj [("persona1", JValue.str "SIG")])]),
     ("metadata", JValue.obj [])]

/-- The store holding `demoState`. -/
def demoStore : StoreFile := some (FileContent.jsonDoc demoState)

/-- Claim C2, as stated, is false on the code: running the Bill Ackman
persona stage computes a signal record but performs no State-Store write
(the store is unchanged and `analyst_signals` still has no
`bill_ackman_agent` entry), and the terminal portfolio stage's store read
returns only the portfolio object, not the accumulated `analyst_signals`
map. -/
theorem C2_counterexample :
    (ackman_plugin_stage [] [] none demoStore).1 = demoStore
    ∧ ((ackman_plugin_stage [] [] none demoStore).2).isSome = true
    ∧ store_analyst_signal (ackman_plugin_stage [] [] none demoStore).1
        "bill_ackman_agent" = none
    ∧ get_porforlio_data demoStore = some (JValue.str "PF")
    ∧ JValue.str "PF" ≠ JValue.obj [("persona1", JValue.str "SIG")] :=
  ⟨rfl, rfl, rfl, rfl, fun h => JValue.noConfusion h⟩

/-- Claim C2 (amended): non-terminal persona stages do not write their
records to the State Store at all (the Ackman data plugin performs no store
operation, so the store passes through unchanged), and the terminal
portfolio stage's data plugin reads the State Store but returns only the
`portfolio` object of the state, not the accumulated `analyst_signals`
map. -/
theorem C2_no_store_merge (metrics : List MetricsRecord)
    (items : List LineItem) (mc : Option ℚ) (st : StoreFile)
    (pf sig meta : JValue) (rest : List (String × JValue)) :
    (ackman_plugin_stage metrics items mc st).1 = st
    ∧ get_porforlio_data (some (FileContent.jsonDoc (JValue.obj
        [("data", JValue.obj
            (("portfolio", pf) :: ("analyst_signals", sig) :: rest)),
         ("metadata", meta)]))) = some pf := by
  refine ⟨rfl, ?_⟩
  simp [get_porforlio_data, mcp_get, load_state_from_file, hasKey, jGet, List.lookup]

/-! ### Orchestrator (src/main.py, run_hedge_fund) -/

/-- One agent of the chain produced by `create_agents`: its node name and
its user-message template. -/
structure AgentSpec where
  name : String
  template : String
deriving Repr, DecidableEq

/-- The user message sent to an agent, with the template's placeholders
substituted: ticker and end date always, and the analysis-data placeholder
only when a previous response exists (`if response != None`). The string
`.replace` mechanics are kept structural. -/
structure UserMessage where
  template : String
  ticker : String
  end_date : String
  analysis_data : Option String
deriving Repr, DecidableEq

/-- One iteration of the inner `for agent, user_message_template in agents`
loop: build the message from the accumulator's previous response, invoke
the agent, and (for every non-terminal agent) record the parsed response
under the agent's name. -/
def agent_step (invoke : String → UserMessage → String)
    (parse : String → Option JValue) (end_date ticker : String)
    (acc : Option String × List (String × Option JValue)) (ag : AgentSpec) :
    Option String × List (String × Option JValue) :=
  let user_message : UserMessage := ⟨ag.template, ticker, end_date, acc.1⟩
  let response := invoke ag.name user_message
  let analysis_data :=
    if ag.name = "portfolio_manager_agent" then acc.2
    else acc.2 ++ [(ag.name, parse response)]
  (some response, analysis_data)

/-- The value returned by `run_hedge_fund`. -/
structure HedgeFundResult where
  decisions : Option JValue
  analyst_signals : List (String × Option JValue)

/-- Embeds the `run_hedge_fund` ticker/agent loop: for every ticker the accumulator
is re-initialised (`response = None; analysis_data = {}` inside the ticker
loop), and after the loop the function returns the final `response` parsed
as `decisions` together with the surviving `analysis_data`. An empty
tickers list leaves `response` unbound (`UnboundLocalError`), and a `None`
final response fails at `response.content`; both are modelled as `none`. -/
def run_hedge_fund (tickers : List String) (end_date : String)
    (agents : List AgentSpec) (invoke : String → UserMessage → String)
    (parse : String → Option JValue) : Option HedgeFundResult :=
  match tickers with
  | [] => none
  | _ :: _ =>
      let final := tickers.foldl
        (fun _ ticker =>
          agents.foldl (agent_step invoke parse end_date ticker)
            (none, ([] : List (String × Option JValue))))
        (none, [])
      match final.1 with
      | none => none
      | some response => some ⟨parse response, final.2⟩

/-- The agent chain of the C1 run: one selected persona followed by the
terminal portfolio manager that `create_agents` always appends. -/
def c1Agents : List AgentSpec :=
  [⟨"bill_ackman_agent", "analyze"⟩, ⟨"portfolio_manager_agent", "decide"⟩]

/-- An `invoke` that faithfully relays the per-ticker signal map each
plugin computes (`{ticker: record}`), tagging it with the requested
ticker. -/
def c1Invoke : String → UserMessage → String :=
  fun _ msg => msg.ticker

/-- Claim C1 evaluated at the failing input `tickers = ["AAPL", "MSFT"]`:
because `analysis_data` (and `response`) are re-initialised inside the
ticker loop and `decisions` is the last response only, the returned
`analyst_signals` holds a single record derived from the last ticker
"MSFT" — the record for "AAPL" is discarded — and `decisions` is not a
per-ticker map but the portfolio response of the last ticker alone. -/
theorem C1_last_ticker_only :
    run_hedge_fund ["AAPL", "MSFT"] "2025-01-01" c1Agents c1Invoke
        (fun s => some (JValue.str s))
      = some ⟨some (JValue.str "MSFT"),
          [("bill_ackman_agent", some (JValue.str "MSFT"))]⟩ := rfl

/-! ### Run configuration validation (src/main.py, __main__) -/

/-- A parsed `YYYY-MM-DD` calendar date (parsing itself is the out-of-scope
`datetime.strptime` glue; the validation logic only consumes its result). -/
structure CalDate where
  y : ℕ
  m : ℕ
  d : ℕ
deriving Repr, DecidableEq

/-- Calendar order on dates. -/
def dateBefore (a b : CalDate) : Bool :=
  (a.y < b.y) || (a.y = b.y && a.m < b.m) || (a.y = b.y && a.m = b.m && a.d < b.d)

/-- The `__main__` date validation: each provided date argument is parsed
with `strptime("%Y-%m-%d")` inside a `try`, raising only on a format error.
`some none` models a provided-but-unparseable argument, `some (some d)` a
provided date that parses to `d`, and `none` an omitted argument. No
comparison between the two dates is ever made. -/
def main_dates_valid (start_arg end_arg : Option (Option CalDate)) : Bool :=
  (match start_arg with
   | some none => false
   | _ => true)
  && (match end_arg with
      | some none => false
      | _ => true)

/-- The observable effects of `run_hedge_fund`, in order: it first writes
the freshly-built initial state through `mcp_upsert_state`, then invokes
every agent of the chain for every ticker. -/
inductive RunEvent where
  | stateWrite
  | agentInvocation (agent ticker : String)
deriving Repr, DecidableEq

/-- The event trace of `run_hedge_fund(tickers, ...)` with agent chain
`agents`: the state write happens unconditionally before the loops. -/
def run_hedge_fund_events (tickers : List String) (agents : List AgentSpec) :
    List RunEvent :=
  RunEvent.stateWrite ::
    tickers.flatMap (fun ticker =>
      agents.map (fun ag => RunEvent.agentInvocation ag.name ticker))

/-- Claim C9, as stated, is false on the code: a configuration whose end
date 2025-01-01 precedes its start date 2025-01-02 passes the only
validation performed (date-format parsing), and the run still writes the
initial state and executes the persona stage; an empty ticker list likewise
still writes the initial state before anything can fail. -/
theorem C9_counterexample :
    dateBefore ⟨2025, 1, 1⟩ ⟨2025, 1, 2⟩ = true
    ∧ main_dates_valid (some (some ⟨2025, 1, 2⟩)) (some (some ⟨2025, 1, 1⟩)) = true
    ∧ run_hedge_fund_events ["AAPL"] [⟨"bill_ackman_agent", "analyze"⟩]
        = [RunEvent.stateWrite, RunEvent.agentInvocation "bill_ackman_agent" "AAPL"]
    ∧ run_hedge_fund_events [] [⟨"bill_ackman_agent", "analyze"⟩]
        = [RunEvent.stateWrite] := by
  refine ⟨?_, rfl, rfl, rfl⟩
  decide

/-- Claim C9 (amended): the program validates only the date format — any
pair of parseable dates passes validation regardless of their order, and an
empty ticker list is not rejected — and `run_hedge_fund` writes the initial
state to the State Store as its first action for every configuration, with
every selected persona invoked for every ticker. -/
theorem C9_no_config_rejection (s e : CalDate) (tickers : List String)
    (agents : List AgentSpec) :
    main_dates_valid (some (some s)) (some (some e)) = true
    ∧ (run_hedge_fund_events tickers agents).head? = some RunEvent.stateWrite
    ∧ (∀ t ∈ tickers, ∀ ag ∈ agents,
        RunEvent.agentInvocation ag.name t ∈ run_hedge_fund_events tickers agents) := by
  refine ⟨rfl, rfl, ?_⟩
  intro t ht ag hag
  simp only [run_hedge_fund_events, List.mem_cons, List.mem_flatMap]
  right
  exact ⟨t, ht, List.mem_map.mpr ⟨ag, hag, rfl⟩⟩

/-- Witness for C9: the reversed-date configuration still passes validation
and the persona invocation for ticker "AAPL" appears in the trace. -/
theorem C9_witness :
    main_dates_valid (some (some ⟨2025, 1, 2⟩)) (some (some ⟨2025, 1, 1⟩)) = true
    ∧ RunEvent.agentInvocation "bill_ackman_agent" "AAPL"
        ∈ run_hedge_fund_events ["AAPL"] [⟨"bill_ackman_agent", "analyze"⟩] := by
  have h := C9_no_config_rejection ⟨2025, 1, 2⟩ ⟨2025, 1, 1⟩ ["AAPL"]
    [⟨"bill_ackman_agent", "analyze"⟩]
  exact ⟨h.1, h.2.2 "AAPL" (by simp) ⟨"bill_ackman_agent", "analyze"⟩ (by simp)⟩
